import Mathlib

/-
Verification of the bitbybit example scripts.

The repository holds two demo scripts:
  * src/examples/vite/playcanvas/starter-template-full/src/2dline.ts
    (the PlayCanvas variant), and
  * src/unnamed/part_000 (the BabylonJS variant).

Each script defines a rectangular-ish profile offset from the Y axis,
asks the OCCT geometry collaborator to build a polyline wire from the
profile points, a planar face from that wire, and a solid by revolving
the face 360 degrees about direction [0, 1, 0], and asks the drawing
collaborator to render the produced entities.  The BabylonJS variant
additionally draws a polyline marking the revolution axis and finally
starts the engine render loop.

We embed the scripts in two complementary ways:

  1. A semantic embedding: each script is a function from an abstract
     collaborator record (whose operations return Except values, mirroring
     awaited promises that may reject) to the list of collaborator calls it
     issues, paired with its final outcome.  The sequential shape of the
     embedding mirrors the fact that the source awaits every collaborator
     call before issuing the next one.

  2. A syntactic embedding: each script body is a list of statements,
     translated line by line, used for the purely structural claims
     (absence of conditionals, loops and try/catch handlers, placement of
     the render-loop registration).

Coordinates are modelled as rational numbers; every numeric literal in the
scripts is rational.
-/

namespace BitByBit

/-- A 3D point, the shallow embedding of an Inputs.Base.Point3 tuple
[x, y, z]. -/
structure Point3 where
  x : ℚ
  y : ℚ
  z : ℚ
deriving DecidableEq

/-- Directions (Inputs.Base.Vector3) are 3-component tuples exactly like
points. -/
abbrev Vector3 : Type := Point3

/-- A polyline entity (Inputs.Base.Polyline3): an ordered list of points. -/
structure Polyline3 where
  points : List Point3
deriving DecidableEq

/-- Input record of bitbybit.occt.shapes.wire.createPolylineWire. -/
structure CreatePolylineWireDto where
  points : List Point3
deriving DecidableEq

/-- Input record of bitbybit.occt.shapes.face.createFaceFromWire; H is the
type of opaque OCCT shape handles. -/
structure FaceFromWireDto (H : Type) where
  shape : H
  planar : Bool
deriving DecidableEq

/-- Input record of bitbybit.occt.operations.revolve
(Inputs.OCCT.RevolveDto), holding the fields the scripts assign: shape,
direction and angle. -/
structure RevolveDto (H : Type) where
  shape : H
  direction : Vector3
  angle : ℚ
deriving DecidableEq

/-- Inputs.Draw.DrawOcctShapeOptions, restricted to the fields the scripts
assign.  A field left at none keeps whatever default the drawing library
gives it; the library source is outside this repository, so defaults stay
abstract. -/
structure DrawOcctShapeOptions where
  faceColour : Option String := none
  edgeColour : Option String := none
  edgeWidth : Option ℚ := none
  drawEdges : Option Bool := none
  drawFaces : Option Bool := none
  faceOpacity : Option ℚ := none
  drawTwoSided : Option Bool := none
  backFaceOpacity : Option ℚ := none
  backFaceColour : Option String := none
deriving DecidableEq

/-- Inputs.Draw.DrawBasicGeometryOptions, restricted to the fields the
BabylonJS script assigns for the axis polyline. -/
structure DrawBasicGeometryOptions where
  colours : Option String := none
  size : Option ℚ := none
deriving DecidableEq

/-- The style record passed to a drawAnyAsync request. -/
inductive DrawOptions where
  | occt (o : DrawOcctShapeOptions)
  | basic (o : DrawBasicGeometryOptions)
deriving DecidableEq

/-- The entity passed to a drawAnyAsync request: an opaque OCCT shape
handle or a plain polyline. -/
inductive Entity (H : Type) where
  | occtShape (h : H)
  | polyline (p : Polyline3)
deriving DecidableEq

/-- One collaborator call issued by a script, recorded with its full
argument record. -/
inductive Call (H : Type) where
  | createPolylineWire (input : CreatePolylineWireDto)
  | drawAnyAsync (entity : Entity H) (opts : DrawOptions)
  | createFaceFromWire (input : FaceFromWireDto H)
  | revolve (input : RevolveDto H)
  | runRenderLoop
deriving DecidableEq

/-- The kind of a collaborator call, forgetting arguments. -/
inductive CallKind where
  | wire
  | draw
  | face
  | revolve
  | renderLoop
deriving DecidableEq

/-- Kind of a call. -/
def Call.kind {H : Type} : Call H → CallKind
  | .createPolylineWire _ => .wire
  | .drawAnyAsync _ _ => .draw
  | .createFaceFromWire _ => .face
  | .revolve _ => .revolve
  | .runRenderLoop => .renderLoop

/-- Whether a call kind is a geometry-kernel step (wire, face or revolve),
as opposed to a drawing request or the render-loop start. -/
def CallKind.isGeom : CallKind → Bool
  | .wire => true
  | .face => true
  | .revolve => true
  | _ => false

/-- The geometry-kernel step kinds occurring in a trace, in issue order. -/
def geomKinds {H : Type} (tr : List (Call H)) : List CallKind :=
  (tr.map Call.kind).filter CallKind.isGeom

/-- The abstract collaborators: the OCCT geometry kernel and the drawing
API.  Every operation returns an Except value, mirroring an awaited promise
that either resolves (ok) or rejects (error).  H is the type of opaque
shape handles, D the type of values returned by drawing requests, E the
error type; all are owned by the collaborators, not by the scripts. -/
structure Kernel (H D E : Type) where
  createPolylineWire : CreatePolylineWireDto → Except E H
  createFaceFromWire : FaceFromWireDto H → Except E H
  revolve : RevolveDto H → Except E H
  drawAnyAsync : Entity H → DrawOptions → Except E D

/-- Result of one collaborator call, unified over the call kinds. -/
inductive CallResult (H D : Type) where
  | shape (h : H)
  | drawn (d : D)
  | loopStarted
deriving DecidableEq

/-- Dispatch a recorded call back to the collaborators.  Starting the
render loop is a host-side registration that cannot reject. -/
def applyCall {H D E : Type} (K : Kernel H D E) : Call H → Except E (CallResult H D)
  | .createPolylineWire i => (K.createPolylineWire i).map .shape
  | .drawAnyAsync ent o => (K.drawAnyAsync ent o).map .drawn
  | .createFaceFromWire i => (K.createFaceFromWire i).map .shape
  | .revolve i => (K.revolve i).map .shape
  | .runRenderLoop => .ok .loopStarted

/-- Await one collaborator call: record it in the trace, and either abort
with the rejection or continue with the resolved value.  This is the
sequencing of one awaited statement. -/
def step {H E A : Type} (acc : List (Call H)) (c : Call H) (r : Except E A)
    (k : List (Call H) → A → List (Call H) × Except E Unit) :
    List (Call H) × Except E Unit :=
  match r with
  | .error e => (acc ++ [c], .error e)
  | .ok a => k (acc ++ [c]) a

namespace PC

/-- Distance of the profile from the Y axis (2dline.ts line 65). -/
def offsetFromAxis : ℚ := 5

/-- Profile width (2dline.ts line 66). -/
def profileWidth : ℚ := 5

/-- Profile height (2dline.ts line 67). -/
def profileHeight : ℚ := 3

/-- The PlayCanvas profile points (2dline.ts lines 69 to 75): a rectangle
offset from the Y axis, closed by repeating the first point. -/
def profilePoints : List Point3 :=
  [ ⟨offsetFromAxis, 0, 0⟩,
    ⟨offsetFromAxis, profileHeight, 0⟩,
    ⟨offsetFromAxis + profileWidth, profileHeight, 0⟩,
    ⟨offsetFromAxis + profileWidth, 0, 0⟩,
    ⟨offsetFromAxis, 0, 0⟩ ]

/-- The wire-construction input (2dline.ts lines 78 to 80). -/
def wireInput : CreatePolylineWireDto := ⟨profilePoints⟩

/-- Style record for drawing the profile wire (2dline.ts lines 83 to 87). -/
def wireDrawOptions : DrawOcctShapeOptions :=
  { edgeColour := some "#ff0000",
    edgeWidth := some 8,
    drawEdges := some true,
    drawFaces := some false }

/-- Style record for drawing the revolved solid (2dline.ts lines 110 to
119). -/
def solidDrawOptions : DrawOcctShapeOptions :=
  { faceColour := some "#4488ff",
    edgeColour := some "#444444",
    edgeWidth := some (1 / 2),
    drawEdges := some true,
    drawFaces := some false,
    faceOpacity := some (3 / 10),
    drawTwoSided := some true,
    backFaceOpacity := some (3 / 10),
    backFaceColour := some "#4488ff" }

/-- The revolve direction [0, 1, 0] (2dline.ts line 104). -/
def revolveDirection : Vector3 := ⟨0, 1, 0⟩

/-- The revolve angle 360 (2dline.ts line 105). -/
def revolveAngle : ℚ := 360

end PC

/-- The PlayCanvas script start function (2dline.ts lines 39 to 125),
from the first collaborator call on: build the wire from the profile
points, draw it, build the planar face from the wire, revolve the face
360 degrees about [0, 1, 0], draw the solid.  Every call is awaited, so
the embedding sequences them; a rejection aborts the rest.  The script
never starts a render loop itself. -/
def playcanvasStart {H D E : Type} (K : Kernel H D E) :
    List (Call H) × Except E Unit :=
  step [] (.createPolylineWire PC.wireInput) (K.createPolylineWire PC.wireInput)
    fun t1 profileWire =>
  step t1 (.drawAnyAsync (.occtShape profileWire) (.occt PC.wireDrawOptions))
      (K.drawAnyAsync (.occtShape profileWire) (.occt PC.wireDrawOptions))
    fun t2 _ =>
  step t2 (.createFaceFromWire ⟨profileWire, true⟩)
      (K.createFaceFromWire ⟨profileWire, true⟩)
    fun t3 profileFace =>
  step t3 (.revolve ⟨profileFace, PC.revolveDirection, PC.revolveAngle⟩)
      (K.revolve ⟨profileFace, PC.revolveDirection, PC.revolveAngle⟩)
    fun t4 revolvedSolid =>
  step t4 (.drawAnyAsync (.occtShape revolvedSolid) (.occt PC.solidDrawOptions))
      (K.drawAnyAsync (.occtShape revolvedSolid) (.occt PC.solidDrawOptions))
    fun t5 _ =>
  (t5, .ok ())

namespace BJS

/-- Distance of the profile from the Y axis (part_000 line 64). -/
def offsetFromAxis : ℚ := 5

/-- Profile width (part_000 line 65). -/
def profileWidth : ℚ := 5

/-- Profile height (part_000 line 66). -/
def profileHeight : ℚ := 3

/-- The BabylonJS profile points (part_000 lines 68 to 75): the same
rectangle with one extra notch point at half width and half height,
closed by repeating the first point. -/
def profilePoints : List Point3 :=
  [ ⟨offsetFromAxis, 0, 0⟩,
    ⟨offsetFromAxis, profileHeight, 0⟩,
    ⟨offsetFromAxis + profileWidth, profileHeight, 0⟩,
    ⟨offsetFromAxis + profileWidth / 2, profileHeight / 2, 0⟩,
    ⟨offsetFromAxis + profileWidth, 0, 0⟩,
    ⟨offsetFromAxis, 0, 0⟩ ]

/-- The wire-construction input (part_000 lines 78 to 80). -/
def wireInput : CreatePolylineWireDto := ⟨profilePoints⟩

/-- Style record for drawing the profile wire (part_000 lines 83 to 87). -/
def wireDrawOptions : DrawOcctShapeOptions :=
  { edgeColour := some "#ff0000",
    edgeWidth := some 8,
    drawEdges := some true,
    drawFaces := some false }

/-- Height of the axis indicator polyline (part_000 line 95). -/
def axisHeight : ℚ := 15

/-- The axis indicator points (part_000 lines 96 to 99). -/
def axisPoints : List Point3 :=
  [ ⟨0, -axisHeight / 2, 0⟩,
    ⟨0, axisHeight / 2, 0⟩ ]

/-- The axis indicator polyline entity (part_000 lines 101 to 103). -/
def axisPolyline : Polyline3 := ⟨axisPoints⟩

/-- Style record for drawing the axis indicator (part_000 lines 105 to
107). -/
def axisOptions : DrawBasicGeometryOptions :=
  { colours := some "#ffff00",
    size := some 4 }

/-- Style record for drawing the revolved solid (part_000 lines 130 to
136). -/
def solidDrawOptions : DrawOcctShapeOptions :=
  { faceColour := some "#4488ff",
    edgeColour := some "#444444",
    edgeWidth := some (1 / 2),
    drawEdges := some true,
    drawFaces := some true,
    faceOpacity := some (3 / 10) }

/-- The revolve direction [0, 1, 0] (part_000 line 124). -/
def revolveDirection : Vector3 := ⟨0, 1, 0⟩

/-- The revolve angle 360 (part_000 line 125). -/
def revolveAngle : ℚ := 360

end BJS

/-- The BabylonJS script start function (part_000 lines 39 to 148), from
the first collaborator call on: build the wire, draw it, draw the axis
indicator polyline, build the planar face from the wire, revolve it 360
degrees about [0, 1, 0], draw the solid, and finally register the engine
render loop.  Every collaborator call is awaited, so the embedding
sequences them; a rejection aborts the rest, including the render-loop
registration. -/
def babylonStart {H D E : Type} (K : Kernel H D E) :
    List (Call H) × Except E Unit :=
  step [] (.createPolylineWire BJS.wireInput) (K.createPolylineWire BJS.wireInput)
    fun t1 profileWire =>
  step t1 (.drawAnyAsync (.occtShape profileWire) (.occt BJS.wireDrawOptions))
      (K.drawAnyAsync (.occtShape profileWire) (.occt BJS.wireDrawOptions))
    fun t2 _ =>
  step t2 (.drawAnyAsync (.polyline BJS.axisPolyline) (.basic BJS.axisOptions))
      (K.drawAnyAsync (.polyline BJS.axisPolyline) (.basic BJS.axisOptions))
    fun t3 _ =>
  step t3 (.createFaceFromWire ⟨profileWire, true⟩)
      (K.createFaceFromWire ⟨profileWire, true⟩)
    fun t4 profileFace =>
  step t4 (.revolve ⟨profileFace, BJS.revolveDirection, BJS.revolveAngle⟩)
      (K.revolve ⟨profileFace, BJS.revolveDirection, BJS.revolveAngle⟩)
    fun t5 revolvedSolid =>
  step t5 (.drawAnyAsync (.occtShape revolvedSolid) (.occt BJS.solidDrawOptions))
      (K.drawAnyAsync (.occtShape revolvedSolid) (.occt BJS.solidDrawOptions))
    fun t6 _ =>
  (t6 ++ [.runRenderLoop], .ok ())

/-- A collaborator record in which every call succeeds, returning numbered
handles, used to evaluate the scripts on a concrete run. -/
def goodKernel : Kernel Nat Nat Unit :=
  { createPolylineWire := fun _ => .ok 1,
    createFaceFromWire := fun _ => .ok 2,
    revolve := fun _ => .ok 3,
    drawAnyAsync := fun _ _ => .ok 0 }

/-- A collaborator record in which face construction rejects and every
other call succeeds. -/
def faceFailKernel : Kernel Nat Nat String :=
  { createPolylineWire := fun _ => .ok 1,
    createFaceFromWire := fun _ => .error "face construction failed",
    revolve := fun _ => .ok 3,
    drawAnyAsync := fun _ _ => .ok 0 }

/-- One statement of a script body, for the syntactic claims.  The scripts
are translated statement by statement; a statement inside a callback
argument is kept as the body of the registering construct. -/
inductive Stmt where
  | skip
  | seq (a b : Stmt)
  | assign (target : String)
  | syncCall (callee : String)
  | awaitCall (callee : String)
  | logCall (message : String)
  | ifThen (cond : String) (body : Stmt)
  | loop (body : Stmt)
  | tryCatch (body handler : Stmt)
  | registerRenderLoop (callback : Stmt)
deriving DecidableEq

/-- Number of conditional statements in a statement, callback bodies
included. -/
def Stmt.countIf : Stmt → Nat
  | .seq a b => a.countIf + b.countIf
  | .ifThen _ b => 1 + b.countIf
  | .loop b => b.countIf
  | .tryCatch b h => b.countIf + h.countIf
  | .registerRenderLoop cb => cb.countIf
  | _ => 0

/-- Number of loop statements in a statement, callback bodies included. -/
def Stmt.countLoop : Stmt → Nat
  | .seq a b => a.countLoop + b.countLoop
  | .ifThen _ b => b.countLoop
  | .loop b => 1 + b.countLoop
  | .tryCatch b h => b.countLoop + h.countLoop
  | .registerRenderLoop cb => cb.countLoop
  | _ => 0

/-- Number of try/catch handlers in a statement, callback bodies
included. -/
def Stmt.countTryCatch : Stmt → Nat
  | .seq a b => a.countTryCatch + b.countTryCatch
  | .ifThen _ b => b.countTryCatch
  | .loop b => b.countTryCatch
  | .tryCatch b h => 1 + b.countTryCatch + h.countTryCatch
  | .registerRenderLoop cb => cb.countTryCatch
  | _ => 0

/-- Number of render-loop registrations in a statement. -/
def Stmt.countRenderLoopReg : Stmt → Nat
  | .seq a b => a.countRenderLoopReg + b.countRenderLoopReg
  | .ifThen _ b => b.countRenderLoopReg
  | .loop b => b.countRenderLoopReg
  | .tryCatch b h => b.countRenderLoopReg + h.countRenderLoopReg
  | .registerRenderLoop cb => 1 + cb.countRenderLoopReg
  | _ => 0

/-- Replace every callback body handed to the hosting environment by skip,
so that counts over the result see only statements the script itself
executes in its straight-line run. -/
def Stmt.stripCallbacks : Stmt → Stmt
  | .seq a b => .seq a.stripCallbacks b.stripCallbacks
  | .ifThen c b => .ifThen c b.stripCallbacks
  | .loop b => .loop b.stripCallbacks
  | .tryCatch b h => .tryCatch b.stripCallbacks h.stripCallbacks
  | .registerRenderLoop _ => .registerRenderLoop .skip
  | s => s

/-- Total number of conditionals in a script body. -/
def countIfs (l : List Stmt) : Nat := (l.map Stmt.countIf).sum

/-- Total number of loops in a script body. -/
def countLoops (l : List Stmt) : Nat := (l.map Stmt.countLoop).sum

/-- Total number of try/catch handlers in a script body. -/
def countTryCatches (l : List Stmt) : Nat := (l.map Stmt.countTryCatch).sum

/-- Total number of render-loop registrations in a script body. -/
def countRenderLoopRegs (l : List Stmt) : Nat :=
  (l.map Stmt.countRenderLoopReg).sum

/-- Strip callback bodies throughout a script body. -/
def stripCallbacksList (l : List Stmt) : List Stmt := l.map Stmt.stripCallbacks

/-- The PlayCanvas start function body (2dline.ts lines 40 to 124),
statement by statement. -/
def playcanvasAst : List Stmt :=
  [ .assign "sceneOptions",
    .assign "sceneOptions.canvasId",
    .assign "sceneOptions.sceneSize",
    .assign "sceneOptions.enableShadows",
    .assign "sceneOptions.enableGround",
    .assign "sceneOptions.groundColor",
    .assign "sceneOptions.groundCenter",
    .assign "sceneOptions.orbitCameraOptions",
    .assign "sceneOptions.orbitCameraOptions.yaw",
    .assign "sceneOptions.orbitCameraOptions.pitch",
    .assign "sceneOptions.orbitCameraOptions.distance",
    .assign "sceneOptions.orbitCameraOptions.inertiaFactor",
    .syncCall "initPlayCanvas",
    .assign "bitbybit",
    .assign "options",
    .awaitCall "initBitByBit",
    .assign "offsetFromAxis",
    .assign "profileWidth",
    .assign "profileHeight",
    .assign "profilePoints",
    .awaitCall "bitbybit.occt.shapes.wire.createPolylineWire",
    .assign "wireDrawOptions",
    .assign "wireDrawOptions.edgeColour",
    .assign "wireDrawOptions.edgeWidth",
    .assign "wireDrawOptions.drawEdges",
    .assign "wireDrawOptions.drawFaces",
    .awaitCall "bitbybit.draw.drawAnyAsync",
    .logCall "Profile wire drawn.",
    .awaitCall "bitbybit.occt.shapes.face.createFaceFromWire",
    .assign "revolveOptions",
    .assign "revolveOptions.shape",
    .assign "revolveOptions.direction",
    .assign "revolveOptions.angle",
    .awaitCall "bitbybit.occt.operations.revolve",
    .assign "solidDrawOptions",
    .assign "solidDrawOptions.faceColour",
    .assign "solidDrawOptions.edgeColour",
    .assign "solidDrawOptions.edgeWidth",
    .assign "solidDrawOptions.drawEdges",
    .assign "solidDrawOptions.drawFaces",
    .assign "solidDrawOptions.faceOpacity",
    .assign "solidDrawOptions.drawTwoSided",
    .assign "solidDrawOptions.backFaceOpacity",
    .assign "solidDrawOptions.backFaceColour",
    .awaitCall "bitbybit.draw.drawAnyAsync",
    .logCall "Revolved solid created and drawn." ]

/-- The BabylonJS start function body (part_000 lines 40 to 147),
statement by statement; the final statement registers the render loop
whose callback holds the single conditional of the repository. -/
def babylonAst : List Stmt :=
  [ .assign "babylonOptions",
    .assign "babylonOptions.canvasId",
    .assign "babylonOptions.sceneSize",
    .assign "babylonOptions.enableShadows",
    .assign "babylonOptions.enableGround",
    .assign "babylonOptions.groundColor",
    .assign "babylonOptions.groundCenter",
    .assign "babylonOptions.arcRotateCameraOptions",
    .assign "babylonOptions.arcRotateCameraOptions.alpha",
    .assign "babylonOptions.arcRotateCameraOptions.beta",
    .assign "babylonOptions.arcRotateCameraOptions.radius",
    .syncCall "initBabylonJS",
    .assign "bitbybit",
    .assign "options",
    .awaitCall "initBitByBit",
    .assign "offsetFromAxis",
    .assign "profileWidth",
    .assign "profileHeight",
    .assign "profilePoints",
    .awaitCall "bitbybit.occt.shapes.wire.createPolylineWire",
    .assign "wireDrawOptions",
    .assign "wireDrawOptions.edgeColour",
    .assign "wireDrawOptions.edgeWidth",
    .assign "wireDrawOptions.drawEdges",
    .assign "wireDrawOptions.drawFaces",
    .awaitCall "bitbybit.draw.drawAnyAsync",
    .logCall "Profile wire drawn.",
    .assign "axisHeight",
    .assign "axisPoints",
    .assign "axisPolyline",
    .assign "axisOptions",
    .assign "axisOptions.colours",
    .assign "axisOptions.size",
    .awaitCall "bitbybit.draw.drawAnyAsync",
    .logCall "Center axis drawn.",
    .awaitCall "bitbybit.occt.shapes.face.createFaceFromWire",
    .assign "revolveOptions",
    .assign "revolveOptions.shape",
    .assign "revolveOptions.direction",
    .assign "revolveOptions.angle",
    .awaitCall "bitbybit.occt.operations.revolve",
    .assign "solidDrawOptions",
    .assign "solidDrawOptions.faceColour",
    .assign "solidDrawOptions.edgeColour",
    .assign "solidDrawOptions.edgeWidth",
    .assign "solidDrawOptions.drawEdges",
    .assign "solidDrawOptions.drawFaces",
    .assign "solidDrawOptions.faceOpacity",
    .awaitCall "bitbybit.draw.drawAnyAsync",
    .logCall "Revolved solid created and drawn.",
    .registerRenderLoop (.ifThen "scene.activeCamera" (.syncCall "scene.render")) ]

/-- Modelled from the spec: the OCCT geometry kernel is external to this
repository.  The spec states that revolving a planar profile a full turn
about the Y axis through the origin yields a ring whose inner and outer
radii are the least and greatest distance of the profile from that axis.
The squared distance of a point from the Y axis is x squared plus z
squared. -/
def radialDistSq (p : Point3) : ℚ := p.x * p.x + p.z * p.z

/-- Modelled from the spec: squared inner radius of the ring obtained by a
full revolution of a profile about the Y axis, the least squared distance
of a profile point from the axis. -/
def ringInnerRadiusSq (pts : List Point3) : Option ℚ :=
  (pts.map radialDistSq).min?

/-- Modelled from the spec: squared outer radius of the ring obtained by a
full revolution of a profile about the Y axis, the greatest squared
distance of a profile point from the axis. -/
def ringOuterRadiusSq (pts : List Point3) : Option ℚ :=
  (pts.map radialDistSq).max?

/-- Effective value of an optional style toggle: the assigned value when
the script assigned one, otherwise the drawing library default. -/
def effectiveToggle (assigned : Option Bool) (libDefault : Bool) : Bool :=
  assigned.getD libDefault

/-- Modelled from the spec: the drawing collaborator is external to this
repository.  The spec describes drawFaces and drawEdges as visibility
toggles, so a draw request renders face styling (colour and opacity) only
when the effective drawFaces toggle is true; otherwise the face styling
fields have no visible effect. -/
def renderedFaceStyle (opts : DrawOcctShapeOptions) (libDefault : Bool) :
    Option (Option String × Option ℚ) :=
  if effectiveToggle opts.drawFaces libDefault then
    some (opts.faceColour, opts.faceOpacity)
  else none

/-- Whether a call is a drawing request. -/
def Call.isDraw {H : Type} : Call H → Bool
  | .drawAnyAsync _ _ => true
  | _ => false

/-- Whether a call is a drawing request whose entity is a plain polyline
(the only such entity in the scripts is the axis indicator). -/
def Call.isPolylineDraw {H : Type} : Call H → Bool
  | .drawAnyAsync (.polyline _) _ => true
  | _ => false

/-- Whether a call starts the render loop. -/
def Call.isRenderLoopStart {H : Type} : Call H → Bool
  | .runRenderLoop => true
  | _ => false

/-- The drawing requests of a trace, in issue order. -/
def drawCalls {H : Type} (tr : List (Call H)) : List (Call H) :=
  tr.filter Call.isDraw

/-- PlayCanvas trace after the wire-construction call. -/
def pcTrace1 {H : Type} : List (Call H) := [.createPolylineWire PC.wireInput]

/-- PlayCanvas trace after drawing the profile wire w. -/
def pcTrace2 {H : Type} (w : H) : List (Call H) :=
  pcTrace1 ++ [.drawAnyAsync (.occtShape w) (.occt PC.wireDrawOptions)]

/-- PlayCanvas trace after the face-construction call on wire w. -/
def pcTrace3 {H : Type} (w : H) : List (Call H) :=
  pcTrace2 w ++ [.createFaceFromWire ⟨w, true⟩]

/-- PlayCanvas trace after the revolve call on face f. -/
def pcTrace4 {H : Type} (w f : H) : List (Call H) :=
  pcTrace3 w ++ [.revolve ⟨f, PC.revolveDirection, PC.revolveAngle⟩]

/-- PlayCanvas trace after drawing the revolved solid s; this is the full
trace of a successful run. -/
def pcTrace5 {H : Type} (w f s : H) : List (Call H) :=
  pcTrace4 w f ++ [.drawAnyAsync (.occtShape s) (.occt PC.solidDrawOptions)]

/-- BabylonJS trace after the wire-construction call. -/
def bjTrace1 {H : Type} : List (Call H) := [.createPolylineWire BJS.wireInput]

/-- BabylonJS trace after drawing the profile wire w. -/
def bjTrace2 {H : Type} (w : H) : List (Call H) :=
  bjTrace1 ++ [.drawAnyAsync (.occtShape w) (.occt BJS.wireDrawOptions)]

/-- BabylonJS trace after drawing the axis indicator polyline. -/
def bjTrace3 {H : Type} (w : H) : List (Call H) :=
  bjTrace2 w ++ [.drawAnyAsync (.polyline BJS.axisPolyline) (.basic BJS.axisOptions)]

/-- BabylonJS trace after the face-construction call on wire w. -/
def bjTrace4 {H : Type} (w : H) : List (Call H) :=
  bjTrace3 w ++ [.createFaceFromWire ⟨w, true⟩]

/-- BabylonJS trace after the revolve call on face f. -/
def bjTrace5 {H : Type} (w f : H) : List (Call H) :=
  bjTrace4 w ++ [.revolve ⟨f, BJS.revolveDirection, BJS.revolveAngle⟩]

/-- BabylonJS trace after drawing the revolved solid s. -/
def bjTrace6 {H : Type} (w f s : H) : List (Call H) :=
  bjTrace5 w f ++ [.drawAnyAsync (.occtShape s) (.occt BJS.solidDrawOptions)]

/-- BabylonJS trace of a successful run, which ends by starting the render
loop. -/
def bjTraceFull {H : Type} (w f s : H) : List (Call H) :=
  bjTrace6 w f s ++ [.runRenderLoop]

/-- Complete case analysis of a PlayCanvas run: either some awaited
collaborator call rejects, the trace stops at that call and the rejection
is the outcome, or every call resolves and the run performs exactly the
five calls of pcTrace5, in order, with the wire handle feeding the face
call, the face handle feeding the revolve call and the solid handle
feeding the final drawing request. -/
lemma playcanvasStart_run {H D E : Type} (K : Kernel H D E) :
    (∃ e, K.createPolylineWire PC.wireInput = .error e ∧
       playcanvasStart K = (pcTrace1, .error e)) ∨
    ∃ w, K.createPolylineWire PC.wireInput = .ok w ∧
      ((∃ e, K.drawAnyAsync (.occtShape w) (.occt PC.wireDrawOptions) = .error e ∧
          playcanvasStart K = (pcTrace2 w, .error e)) ∨
       ∃ d, K.drawAnyAsync (.occtShape w) (.occt PC.wireDrawOptions) = .ok d ∧
        ((∃ e, K.createFaceFromWire ⟨w, true⟩ = .error e ∧
            playcanvasStart K = (pcTrace3 w, .error e)) ∨
         ∃ f, K.createFaceFromWire ⟨w, true⟩ = .ok f ∧
          ((∃ e, K.revolve ⟨f, PC.revolveDirection, PC.revolveAngle⟩ = .error e ∧
              playcanvasStart K = (pcTrace4 w f, .error e)) ∨
           ∃ s, K.revolve ⟨f, PC.revolveDirection, PC.revolveAngle⟩ = .ok s ∧
            ((∃ e, K.drawAnyAsync (.occtShape s) (.occt PC.solidDrawOptions) = .error e ∧
                playcanvasStart K = (pcTrace5 w f s, .error e)) ∨
             ∃ d₂, K.drawAnyAsync (.occtShape s) (.occt PC.solidDrawOptions) = .ok d₂ ∧
                playcanvasStart K = (pcTrace5 w f s, .ok ()))))) := by
  cases hw : K.createPolylineWire PC.wireInput with
  | error e =>
    exact Or.inl ⟨e, rfl, by simp [playcanvasStart, step, hw, pcTrace1]⟩
  | ok w =>
    refine Or.inr ⟨w, rfl, ?_⟩
    cases hd : K.drawAnyAsync (.occtShape w) (.occt PC.wireDrawOptions) with
    | error e =>
      exact Or.inl ⟨e, rfl,
        by simp [playcanvasStart, step, hw, hd, pcTrace1, pcTrace2]⟩
    | ok d =>
      refine Or.inr ⟨d, rfl, ?_⟩
      cases hf : K.createFaceFromWire (⟨w, true⟩ : FaceFromWireDto H) with
      | error e =>
        exact Or.inl ⟨e, rfl,
          by simp [playcanvasStart, step, hw, hd, hf, pcTrace1, pcTrace2, pcTrace3]⟩
      | ok f =>
        refine Or.inr ⟨f, rfl, ?_⟩
        cases hr : K.revolve ⟨f, PC.revolveDirection, PC.revolveAngle⟩ with
        | error e =>
          exact Or.inl ⟨e, rfl,
            by simp [playcanvasStart, step, hw, hd, hf, hr,
              pcTrace1, pcTrace2, pcTrace3, pcTrace4]⟩
        | ok s =>
          refine Or.inr ⟨s, rfl, ?_⟩
          cases hds : K.drawAnyAsync (.occtShape s) (.occt PC.solidDrawOptions) with
          | error e =>
            exact Or.inl ⟨e, rfl,
              by simp [playcanvasStart, step, hw, hd, hf, hr, hds,
                pcTrace1, pcTrace2, pcTrace3, pcTrace4, pcTrace5]⟩
          | ok d₂ =>
            exact Or.inr ⟨d₂, rfl,
              by simp [playcanvasStart, step, hw, hd, hf, hr, hds,
                pcTrace1, pcTrace2, pcTrace3, pcTrace4, pcTrace5]⟩

/-- Complete case analysis of a BabylonJS run: either some awaited
collaborator call rejects, the trace stops at that call and the rejection
is the outcome, or every call resolves and the run performs exactly the
six collaborator calls and then starts the render loop, with the wire
handle feeding the face call, the face handle feeding the revolve call
and the solid handle feeding the final drawing request. -/
lemma babylonStart_run {H D E : Type} (K : Kernel H D E) :
    (∃ e, K.createPolylineWire BJS.wireInput = .error e ∧
       babylonStart K = (bjTrace1, .error e)) ∨
    ∃ w, K.createPolylineWire BJS.wireInput = .ok w ∧
      ((∃ e, K.drawAnyAsync (.occtShape w) (.occt BJS.wireDrawOptions) = .error e ∧
          babylonStart K = (bjTrace2 w, .error e)) ∨
       ∃ d, K.drawAnyAsync (.occtShape w) (.occt BJS.wireDrawOptions) = .ok d ∧
        ((∃ e, K.drawAnyAsync (.polyline BJS.axisPolyline) (.basic BJS.axisOptions) = .error e ∧
            babylonStart K = (bjTrace3 w, .error e)) ∨
         ∃ d₂, K.drawAnyAsync (.polyline BJS.axisPolyline) (.basic BJS.axisOptions) = .ok d₂ ∧
          ((∃ e, K.createFaceFromWire ⟨w, true⟩ = .error e ∧
              babylonStart K = (bjTrace4 w, .error e)) ∨
           ∃ f, K.createFaceFromWire ⟨w, true⟩ = .ok f ∧
            ((∃ e, K.revolve ⟨f, BJS.revolveDirection, BJS.revolveAngle⟩ = .error e ∧
                babylonStart K = (bjTrace5 w f, .error e)) ∨
             ∃ s, K.revolve ⟨f, BJS.revolveDirection, BJS.revolveAngle⟩ = .ok s ∧
              ((∃ e, K.drawAnyAsync (.occtShape s) (.occt BJS.solidDrawOptions) = .error e ∧
                  babylonStart K = (bjTrace6 w f s, .error e)) ∨
               ∃ d₃, K.drawAnyAsync (.occtShape s) (.occt BJS.solidDrawOptions) = .ok d₃ ∧
                  babylonStart K = (bjTraceFull w f s, .ok ())))))) := by
  cases hw : K.createPolylineWire BJS.wireInput with
  | error e =>
    exact Or.inl ⟨e, rfl, by simp [babylonStart, step, hw, bjTrace1]⟩
  | ok w =>
    refine Or.inr ⟨w, rfl, ?_⟩
    cases hd : K.drawAnyAsync (.occtShape w) (.occt BJS.wireDrawOptions) with
    | error e =>
      exact Or.inl ⟨e, rfl,
        by simp [babylonStart, step, hw, hd, bjTrace1, bjTrace2]⟩
    | ok d =>
      refine Or.inr ⟨d, rfl, ?_⟩
      cases ha : K.drawAnyAsync (.polyline BJS.axisPolyline) (.basic BJS.axisOptions) with
      | error e =>
        exact Or.inl ⟨e, rfl,
          by simp [babylonStart, step, hw, hd, ha, bjTrace1, bjTrace2, bjTrace3]⟩
      | ok d₂ =>
        refine Or.inr ⟨d₂, rfl, ?_⟩
        cases hf : K.createFaceFromWire (⟨w, true⟩ : FaceFromWireDto H) with
        | error e =>
          exact Or.inl ⟨e, rfl,
            by simp [babylonStart, step, hw, hd, ha, hf,
              bjTrace1, bjTrace2, bjTrace3, bjTrace4]⟩
        | ok f =>
          refine Or.inr ⟨f, rfl, ?_⟩
          cases hr : K.revolve ⟨f, BJS.revolveDirection, BJS.revolveAngle⟩ with
          | error e =>
            exact Or.inl ⟨e, rfl,
              by simp [babylonStart, step, hw, hd, ha, hf, hr,
                bjTrace1, bjTrace2, bjTrace3, bjTrace4, bjTrace5]⟩
          | ok s =>
            refine Or.inr ⟨s, rfl, ?_⟩
            cases hds : K.drawAnyAsync (.occtShape s) (.occt BJS.solidDrawOptions) with
            | error e =>
              exact Or.inl ⟨e, rfl,
                by simp [babylonStart, step, hw, hd, ha, hf, hr, hds,
                  bjTrace1, bjTrace2, bjTrace3, bjTrace4, bjTrace5, bjTrace6]⟩
            | ok d₃ =>
              exact Or.inr ⟨d₃, rfl,
                by simp [babylonStart, step, hw, hd, ha, hf, hr, hds,
                  bjTrace1, bjTrace2, bjTrace3, bjTrace4, bjTrace5, bjTrace6, bjTraceFull]⟩

example : (playcanvasStart goodKernel).2 = .ok () := rfl
example : geomKinds (playcanvasStart goodKernel).1 = [.wire, .face, .revolve] := by decide
example : geomKinds (babylonStart goodKernel).1 = [.wire, .face, .revolve] := by decide
example : (babylonStart faceFailKernel).2 = .error "face construction failed" := rfl

/-- C1: in every script, the profile point sequence passed to wire
construction is closed and non-degenerate: its first and last entries are
equal, and it contains at least 3 points. -/
theorem c1_profile_closed_nondegenerate :
    PC.wireInput.points = PC.profilePoints ∧
    BJS.wireInput.points = BJS.profilePoints ∧
    PC.profilePoints.head? = PC.profilePoints.getLast? ∧
    3 ≤ PC.profilePoints.length ∧
    BJS.profilePoints.head? = BJS.profilePoints.getLast? ∧
    3 ≤ BJS.profilePoints.length := by
  refine ⟨rfl, rfl, ?_, ?_, ?_, ?_⟩ <;> decide

/-- C5: every point of the profile sequence of every script has z-coordinate 0,
so the cross-section lies entirely in the X-Y plane at Z equal 0. -/
theorem c5_profile_in_xy_plane :
    (∀ p ∈ PC.profilePoints, p.z = 0) ∧ ∀ p ∈ BJS.profilePoints, p.z = 0 := by
  decide

/-- Witness for C5: the first profile point of the PlayCanvas script has
z-coordinate 0. -/
theorem c5_witness :
    (⟨5, 0, 0⟩ : Point3) ∈ PC.profilePoints ∧ (⟨5, 0, 0⟩ : Point3).z = 0 :=
  ⟨by decide, c5_profile_in_xy_plane.1 ⟨5, 0, 0⟩ (by decide)⟩

/-- C10: the PlayCanvas style record for the revolved solid sets drawFaces
false and drawEdges true, so under the modelled renderer the solid shows
edges only and its face colour and opacity settings have no visible
effect, whatever the library defaults are; the BabylonJS variant sets
drawFaces true and its face styling is rendered. -/
theorem c10_solid_draw_styles :
    PC.solidDrawOptions.drawFaces = some false ∧
    PC.solidDrawOptions.drawEdges = some true ∧
    BJS.solidDrawOptions.drawFaces = some true ∧
    BJS.solidDrawOptions.drawEdges = some true ∧
    (∀ libDefault : Bool, renderedFaceStyle PC.solidDrawOptions libDefault = none) ∧
    (∀ (libDefault : Bool) (c : Option String) (o : Option ℚ),
       renderedFaceStyle
         { PC.solidDrawOptions with faceColour := c, faceOpacity := o }
         libDefault = none) ∧
    ∀ libDefault : Bool,
      renderedFaceStyle BJS.solidDrawOptions libDefault =
        some (some "#4488ff", some (3 / 10)) := by
  refine ⟨rfl, rfl, rfl, rfl, ?_, ?_, ?_⟩
  · intro libDefault
    simp [renderedFaceStyle, effectiveToggle, PC.solidDrawOptions]
  · intro libDefault c o
    simp [renderedFaceStyle, effectiveToggle, PC.solidDrawOptions]
  · intro libDefault
    simp [renderedFaceStyle, effectiveToggle, BJS.solidDrawOptions]

/-- C4: with offsetFromAxis 5, width 5 and height 3, both profiles span
exactly x between 5 and 10; every revolve request either script issues
carries direction [0, 1, 0] and angle 360; and under the modelled
revolution about the Y axis the resulting ring has squared inner radius 25
and squared outer radius 100, that is, inner radius 5 and outer radius
10. -/
theorem c4_ring_scenario :
    (PC.offsetFromAxis = 5 ∧ PC.profileWidth = 5 ∧ PC.profileHeight = 3 ∧
     BJS.offsetFromAxis = 5 ∧ BJS.profileWidth = 5 ∧ BJS.profileHeight = 3 ∧
     (PC.profilePoints.map Point3.x).min? = some 5 ∧
     (PC.profilePoints.map Point3.x).max? = some 10 ∧
     (BJS.profilePoints.map Point3.x).min? = some 5 ∧
     (BJS.profilePoints.map Point3.x).max? = some 10 ∧
     PC.revolveDirection = ⟨0, 1, 0⟩ ∧ PC.revolveAngle = 360 ∧
     BJS.revolveDirection = ⟨0, 1, 0⟩ ∧ BJS.revolveAngle = 360 ∧
     ringInnerRadiusSq PC.profilePoints = some 25 ∧
     ringOuterRadiusSq PC.profilePoints = some 100 ∧
     ringInnerRadiusSq BJS.profilePoints = some 25 ∧
     ringOuterRadiusSq BJS.profilePoints = some 100) ∧
    (∀ (H D E : Type) (K : Kernel H D E) (i : RevolveDto H),
       Call.revolve i ∈ (playcanvasStart K).1 →
       i.direction = ⟨0, 1, 0⟩ ∧ i.angle = 360) ∧
    ∀ (H D E : Type) (K : Kernel H D E) (i : RevolveDto H),
       Call.revolve i ∈ (babylonStart K).1 →
       i.direction = ⟨0, 1, 0⟩ ∧ i.angle = 360 := by
  refine ⟨⟨rfl, rfl, rfl, rfl, rfl, rfl, ?_, ?_, ?_, ?_,
    rfl, rfl, rfl, rfl, ?_, ?_, ?_, ?_⟩, ?_, ?_⟩
  · norm_num [PC.profilePoints, PC.offsetFromAxis, PC.profileWidth,
      PC.profileHeight, List.min?, min_def]
  · norm_num [PC.profilePoints, PC.offsetFromAxis, PC.profileWidth,
      PC.profileHeight, List.max?, max_def]
  · norm_num [BJS.profilePoints, BJS.offsetFromAxis, BJS.profileWidth,
      BJS.profileHeight, List.min?, min_def]
  · norm_num [BJS.profilePoints, BJS.offsetFromAxis, BJS.profileWidth,
      BJS.profileHeight, List.max?, max_def]
  · norm_num [ringInnerRadiusSq, radialDistSq, PC.profilePoints,
      PC.offsetFromAxis, PC.profileWidth, PC.profileHeight, List.min?, min_def]
  · norm_num [ringOuterRadiusSq, radialDistSq, PC.profilePoints,
      PC.offsetFromAxis, PC.profileWidth, PC.profileHeight, List.max?, max_def]
  · norm_num [ringInnerRadiusSq, radialDistSq, BJS.profilePoints,
      BJS.offsetFromAxis, BJS.profileWidth, BJS.profileHeight, List.min?, min_def]
  · norm_num [ringOuterRadiusSq, radialDistSq, BJS.profilePoints,
      BJS.offsetFromAxis, BJS.profileWidth, BJS.profileHeight, List.max?, max_def]
  · intro H D E K i hmem
    rcases playcanvasStart_run K with ⟨e, _, hpc⟩ | ⟨w, _, ⟨e, _, hpc⟩ |
      ⟨d, _, ⟨e, _, hpc⟩ | ⟨f, _, ⟨e, _, hpc⟩ | ⟨s, _, ⟨e, _, hpc⟩ |
      ⟨d₂, _, hpc⟩⟩⟩⟩⟩ <;>
      rw [hpc] at hmem <;>
      simp [pcTrace1, pcTrace2, pcTrace3, pcTrace4, pcTrace5] at hmem <;>
      simp [hmem, PC.revolveDirection, PC.revolveAngle]
  · intro H D E K i hmem
    rcases babylonStart_run K with ⟨e, _, hbj⟩ | ⟨w, _, ⟨e, _, hbj⟩ |
      ⟨d, _, ⟨e, _, hbj⟩ | ⟨d₂, _, ⟨e, _, hbj⟩ | ⟨f, _, ⟨e, _, hbj⟩ |
      ⟨s, _, ⟨e, _, hbj⟩ | ⟨d₃, _, hbj⟩⟩⟩⟩⟩⟩ <;>
      rw [hbj] at hmem <;>
      simp [bjTrace1, bjTrace2, bjTrace3, bjTrace4, bjTrace5, bjTrace6,
        bjTraceFull] at hmem <;>
      simp [hmem, BJS.revolveDirection, BJS.revolveAngle]

/-- Witness for C4: the revolve request of a fully successful PlayCanvas
run carries direction [0, 1, 0] and angle 360. -/
theorem c4_witness :
    Call.revolve (⟨2, ⟨0, 1, 0⟩, 360⟩ : RevolveDto Nat) ∈ (playcanvasStart goodKernel).1 ∧
    (⟨2, ⟨0, 1, 0⟩, 360⟩ : RevolveDto Nat).direction = ⟨0, 1, 0⟩ ∧
    (⟨2, ⟨0, 1, 0⟩, 360⟩ : RevolveDto Nat).angle = 360 :=
  ⟨by decide, c4_ring_scenario.2.1 Nat Nat Unit goodKernel _ (by decide)⟩

/-- C2: in every script the geometry-kernel steps occur in the fixed order
wire construction, face construction, revolve: the sequence of
geometry-kernel calls issued is always a non-empty prefix of
[wire, face, revolve], and a successful run issues all three.  Each
awaited call is sequenced before the next by the embedding, which mirrors
the await on every collaborator call in the source: a later call is only
issued once the earlier one has resolved. -/
theorem c2_fixed_step_order :
    (∀ (H D E : Type) (K : Kernel H D E),
       (geomKinds (playcanvasStart K).1 = [.wire] ∨
        geomKinds (playcanvasStart K).1 = [.wire, .face] ∨
        geomKinds (playcanvasStart K).1 = [.wire, .face, .revolve]) ∧
       ((playcanvasStart K).2 = .ok () →
         geomKinds (playcanvasStart K).1 = [.wire, .face, .revolve])) ∧
    ∀ (H D E : Type) (K : Kernel H D E),
       (geomKinds (babylonStart K).1 = [.wire] ∨
        geomKinds (babylonStart K).1 = [.wire, .face] ∨
        geomKinds (babylonStart K).1 = [.wire, .face, .revolve]) ∧
       ((babylonStart K).2 = .ok () →
         geomKinds (babylonStart K).1 = [.wire, .face, .revolve]) := by
  constructor
  · intro H D E K
    rcases playcanvasStart_run K with ⟨e, _, hpc⟩ | ⟨w, _, ⟨e, _, hpc⟩ |
      ⟨d, _, ⟨e, _, hpc⟩ | ⟨f, _, ⟨e, _, hpc⟩ | ⟨s, _, ⟨e, _, hpc⟩ |
      ⟨d₂, _, hpc⟩⟩⟩⟩⟩ <;>
      rw [hpc] <;>
      simp [geomKinds, pcTrace1, pcTrace2, pcTrace3, pcTrace4, pcTrace5,
        Call.kind, CallKind.isGeom]
  · intro H D E K
    rcases babylonStart_run K with ⟨e, _, hbj⟩ | ⟨w, _, ⟨e, _, hbj⟩ |
      ⟨d, _, ⟨e, _, hbj⟩ | ⟨d₂, _, ⟨e, _, hbj⟩ | ⟨f, _, ⟨e, _, hbj⟩ |
      ⟨s, _, ⟨e, _, hbj⟩ | ⟨d₃, _, hbj⟩⟩⟩⟩⟩⟩ <;>
      rw [hbj] <;>
      simp [geomKinds, bjTrace1, bjTrace2, bjTrace3, bjTrace4, bjTrace5,
        bjTrace6, bjTraceFull, Call.kind, CallKind.isGeom]

/-- Witness for C2: under the all-resolving collaborators both scripts
complete and their geometry-kernel calls are exactly wire, face, revolve
in that order. -/
theorem c2_witness :
    geomKinds (playcanvasStart goodKernel).1 = [.wire, .face, .revolve] ∧
    geomKinds (babylonStart goodKernel).1 = [.wire, .face, .revolve] :=
  ⟨(c2_fixed_step_order.1 Nat Nat Unit goodKernel).2 rfl,
   (c2_fixed_step_order.2 Nat Nat Unit goodKernel).2 rfl⟩

/-- C3 counterexample: in a fully successful run the PlayCanvas script
issues two drawing requests, not three, and none of its drawing requests
carries a polyline entity, so it draws no axis indicator; this refutes
the claim that every script issues one drawing request for each of the
profile wire, an axis indicator and the revolved solid. -/
theorem c3_counterexample :
    (playcanvasStart goodKernel).2 = .ok () ∧
    (drawCalls (playcanvasStart goodKernel).1).length = 2 ∧
    ¬ (drawCalls (playcanvasStart goodKernel).1).length = 3 ∧
    (playcanvasStart goodKernel).1.filter Call.isPolylineDraw = [] :=
  ⟨rfl, by decide, by decide, by decide⟩

/-- C3 amended: the BabylonJS script issues exactly one drawing request
for each of the profile wire, the axis indicator polyline and the
revolved solid; the PlayCanvas script issues exactly one drawing request
for each of the profile wire and the revolved solid, and never draws any
polyline axis indicator; in both scripts each drawing request carries its
own independently constructed style record and no style record is shared
between two draw calls. -/
theorem c3_amended_draw_requests :
    (∀ (H D E : Type) (K : Kernel H D E), (playcanvasStart K).2 = .ok () →
       ∃ w s, drawCalls (playcanvasStart K).1 =
         [.drawAnyAsync (.occtShape w) (.occt PC.wireDrawOptions),
          .drawAnyAsync (.occtShape s) (.occt PC.solidDrawOptions)]) ∧
    (∀ (H D E : Type) (K : Kernel H D E), (babylonStart K).2 = .ok () →
       ∃ w s, drawCalls (babylonStart K).1 =
         [.drawAnyAsync (.occtShape w) (.occt BJS.wireDrawOptions),
          .drawAnyAsync (.polyline BJS.axisPolyline) (.basic BJS.axisOptions),
          .drawAnyAsync (.occtShape s) (.occt BJS.solidDrawOptions)]) ∧
    (∀ (H D E : Type) (K : Kernel H D E) (p : Polyline3) (o : DrawOptions),
       Call.drawAnyAsync (.polyline p) o ∉ (playcanvasStart K).1) ∧
    DrawOptions.occt PC.wireDrawOptions ≠ DrawOptions.occt PC.solidDrawOptions ∧
    DrawOptions.occt BJS.wireDrawOptions ≠ DrawOptions.basic BJS.axisOptions ∧
    DrawOptions.occt BJS.wireDrawOptions ≠ DrawOptions.occt BJS.solidDrawOptions ∧
    DrawOptions.basic BJS.axisOptions ≠ DrawOptions.occt BJS.solidDrawOptions := by
  refine ⟨?_, ?_, ?_, by decide, by decide, by decide, by decide⟩
  · intro H D E K hok
    rcases playcanvasStart_run K with ⟨e, _, hpc⟩ | ⟨w, _, ⟨e, _, hpc⟩ |
      ⟨d, _, ⟨e, _, hpc⟩ | ⟨f, _, ⟨e, _, hpc⟩ | ⟨s, _, ⟨e, _, hpc⟩ |
      ⟨d₂, _, hpc⟩⟩⟩⟩⟩ <;> rw [hpc] at hok ⊢
    · simp at hok
    · simp at hok
    · simp at hok
    · simp at hok
    · simp at hok
    · exact ⟨w, s, by simp [drawCalls, pcTrace5, pcTrace4, pcTrace3,
        pcTrace2, pcTrace1, Call.isDraw]⟩
  · intro H D E K hok
    rcases babylonStart_run K with ⟨e, _, hbj⟩ | ⟨w, _, ⟨e, _, hbj⟩ |
      ⟨d, _, ⟨e, _, hbj⟩ | ⟨d₂, _, ⟨e, _, hbj⟩ | ⟨f, _, ⟨e, _, hbj⟩ |
      ⟨s, _, ⟨e, _, hbj⟩ | ⟨d₃, _, hbj⟩⟩⟩⟩⟩⟩ <;> rw [hbj] at hok ⊢
    · simp at hok
    · simp at hok
    · simp at hok
    · simp at hok
    · simp at hok
    · simp at hok
    · exact ⟨w, s, by simp [drawCalls, bjTraceFull, bjTrace6, bjTrace5,
        bjTrace4, bjTrace3, bjTrace2, bjTrace1, Call.isDraw]⟩
  · intro H D E K p o
    rcases playcanvasStart_run K with ⟨e, _, hpc⟩ | ⟨w, _, ⟨e, _, hpc⟩ |
      ⟨d, _, ⟨e, _, hpc⟩ | ⟨f, _, ⟨e, _, hpc⟩ | ⟨s, _, ⟨e, _, hpc⟩ |
      ⟨d₂, _, hpc⟩⟩⟩⟩⟩ <;> rw [hpc] <;>
      simp [pcTrace5, pcTrace4, pcTrace3, pcTrace2, pcTrace1]

/-- Witness for C3 amended: the drawing requests of fully successful runs
of both scripts, with their style records. -/
theorem c3_amended_witness :
    (∃ w s, drawCalls (playcanvasStart goodKernel).1 =
       [.drawAnyAsync (.occtShape w) (.occt PC.wireDrawOptions),
        .drawAnyAsync (.occtShape s) (.occt PC.solidDrawOptions)]) ∧
    ∃ w s, drawCalls (babylonStart goodKernel).1 =
       [.drawAnyAsync (.occtShape w) (.occt BJS.wireDrawOptions),
        .drawAnyAsync (.polyline BJS.axisPolyline) (.basic BJS.axisOptions),
        .drawAnyAsync (.occtShape s) (.occt BJS.solidDrawOptions)] :=
  ⟨c3_amended_draw_requests.1 Nat Nat Unit goodKernel rfl,
   c3_amended_draw_requests.2.1 Nat Nat Unit goodKernel rfl⟩

/-- C7 counterexample: the BabylonJS start function does contain a
conditional statement, the active-camera guard inside the render-loop
callback it registers as its final statement; this refutes the claim that
the procedure contains no branching. -/
theorem c7_counterexample :
    countIfs babylonAst = 1 ∧
    ¬ countIfs babylonAst = 0 ∧
    babylonAst.getLast? =
      some (.registerRenderLoop
        (.ifThen "scene.activeCamera" (.syncCall "scene.render"))) :=
  ⟨by decide, by decide, rfl⟩

/-- C7 amended: the pipeline control flow is strictly sequential with each
geometry step output feeding the next step input, and both script
bodies contain no loops, no try/catch handlers and no retries; the only
conditional in either script is the single active-camera guard inside the
BabylonJS render-loop callback, which the hosting environment runs per
frame and which is not a pipeline step. -/
theorem c7_amended_straight_line_pipeline :
    (∀ st ∈ playcanvasAst,
       st.countIf = 0 ∧ st.countLoop = 0 ∧ st.countTryCatch = 0) ∧
    countIfs (stripCallbacksList babylonAst) = 0 ∧
    countLoops babylonAst = 0 ∧
    countTryCatches babylonAst = 0 ∧
    countIfs babylonAst = 1 ∧
    (∀ (H D E : Type) (K : Kernel H D E), (playcanvasStart K).2 = .ok () →
       ∃ w f s, K.createPolylineWire PC.wireInput = .ok w ∧
         K.createFaceFromWire ⟨w, true⟩ = .ok f ∧
         K.revolve ⟨f, PC.revolveDirection, PC.revolveAngle⟩ = .ok s ∧
         (playcanvasStart K).1 = pcTrace5 w f s) ∧
    ∀ (H D E : Type) (K : Kernel H D E), (babylonStart K).2 = .ok () →
       ∃ w f s, K.createPolylineWire BJS.wireInput = .ok w ∧
         K.createFaceFromWire ⟨w, true⟩ = .ok f ∧
         K.revolve ⟨f, BJS.revolveDirection, BJS.revolveAngle⟩ = .ok s ∧
         (babylonStart K).1 = bjTraceFull w f s := by
  refine ⟨by decide, by decide, by decide, by decide, by decide, ?_, ?_⟩
  · intro H D E K hok
    rcases playcanvasStart_run K with ⟨e, _, hpc⟩ | ⟨w, hw, ⟨e, _, hpc⟩ |
      ⟨d, _, ⟨e, _, hpc⟩ | ⟨f, hf, ⟨e, _, hpc⟩ | ⟨s, hr, ⟨e, _, hpc⟩ |
      ⟨d₂, _, hpc⟩⟩⟩⟩⟩ <;> rw [hpc] at hok
    · simp at hok
    · simp at hok
    · simp at hok
    · simp at hok
    · simp at hok
    · exact ⟨w, f, s, hw, hf, hr, by rw [hpc]⟩
  · intro H D E K hok
    rcases babylonStart_run K with ⟨e, _, hbj⟩ | ⟨w, hw, ⟨e, _, hbj⟩ |
      ⟨d, _, ⟨e, _, hbj⟩ | ⟨d₂, _, ⟨e, _, hbj⟩ | ⟨f, hf, ⟨e, _, hbj⟩ |
      ⟨s, hr, ⟨e, _, hbj⟩ | ⟨d₃, _, hbj⟩⟩⟩⟩⟩⟩ <;> rw [hbj] at hok
    · simp at hok
    · simp at hok
    · simp at hok
    · simp at hok
    · simp at hok
    · simp at hok
    · exact ⟨w, f, s, hw, hf, hr, by rw [hbj]⟩

/-- Witness for C7 amended: the chained handles of a fully successful
PlayCanvas run. -/
theorem c7_amended_witness :
    ∃ w f s, goodKernel.createPolylineWire PC.wireInput = .ok w ∧
      goodKernel.createFaceFromWire ⟨w, true⟩ = .ok f ∧
      goodKernel.revolve ⟨f, PC.revolveDirection, PC.revolveAngle⟩ = .ok s ∧
      (playcanvasStart goodKernel).1 = pcTrace5 w f s :=
  c7_amended_straight_line_pipeline.2.2.2.2.2.1 Nat Nat Unit goodKernel rfl

/-- C9 counterexample: the PlayCanvas script never starts a render loop:
even a fully successful run, in which every geometry and drawing call
completes, issues zero render-loop starts; this refutes the claim that
every script starts the render loop exactly once as its final action. -/
theorem c9_counterexample :
    (playcanvasStart goodKernel).2 = .ok () ∧
    ((playcanvasStart goodKernel).1.filter Call.isRenderLoopStart).length = 0 ∧
    ¬ ((playcanvasStart goodKernel).1.filter Call.isRenderLoopStart).length = 1 :=
  ⟨rfl, by decide, by decide⟩

/-- C9 amended: only the BabylonJS script starts the render loop, exactly
once and as its final action, after every geometry construction and
drawing call has completed; if any collaborator call rejects, the render
loop is not started; the PlayCanvas script contains no render-loop start
at all, its render loop being managed by the engine bootstrap, outside
the script logic. -/
theorem c9_amended_render_loop :
    (∀ (H D E : Type) (K : Kernel H D E), (babylonStart K).2 = .ok () →
       ((babylonStart K).1.filter Call.isRenderLoopStart).length = 1 ∧
       (babylonStart K).1.getLast? = some .runRenderLoop) ∧
    (∀ (H D E : Type) (K : Kernel H D E) (e : E), (babylonStart K).2 = .error e →
       ((babylonStart K).1.filter Call.isRenderLoopStart).length = 0) ∧
    (∀ (H D E : Type) (K : Kernel H D E),
       ((playcanvasStart K).1.filter Call.isRenderLoopStart).length = 0) ∧
    countRenderLoopRegs playcanvasAst = 0 ∧
    countRenderLoopRegs babylonAst = 1 ∧
    babylonAst.getLast? =
      some (.registerRenderLoop
        (.ifThen "scene.activeCamera" (.syncCall "scene.render"))) := by
  refine ⟨?_, ?_, ?_, by decide, by decide, rfl⟩
  · intro H D E K hok
    rcases babylonStart_run K with ⟨e, _, hbj⟩ | ⟨w, _, ⟨e, _, hbj⟩ |
      ⟨d, _, ⟨e, _, hbj⟩ | ⟨d₂, _, ⟨e, _, hbj⟩ | ⟨f, _, ⟨e, _, hbj⟩ |
      ⟨s, _, ⟨e, _, hbj⟩ | ⟨d₃, _, hbj⟩⟩⟩⟩⟩⟩ <;> rw [hbj] at hok ⊢
    · simp at hok
    · simp at hok
    · simp at hok
    · simp at hok
    · simp at hok
    · simp at hok
    · constructor
      · simp [bjTraceFull, bjTrace6, bjTrace5, bjTrace4, bjTrace3,
          bjTrace2, bjTrace1, Call.isRenderLoopStart]
      · simp [bjTraceFull]
  · intro H D E K e herr
    rcases babylonStart_run K with ⟨e₁, _, hbj⟩ | ⟨w, _, ⟨e₁, _, hbj⟩ |
      ⟨d, _, ⟨e₁, _, hbj⟩ | ⟨d₂, _, ⟨e₁, _, hbj⟩ | ⟨f, _, ⟨e₁, _, hbj⟩ |
      ⟨s, _, ⟨e₁, _, hbj⟩ | ⟨d₃, _, hbj⟩⟩⟩⟩⟩⟩ <;> rw [hbj] at herr ⊢ <;>
      simp [bjTraceFull, bjTrace6, bjTrace5, bjTrace4, bjTrace3, bjTrace2,
        bjTrace1, Call.isRenderLoopStart] at herr ⊢
  · intro H D E K
    rcases playcanvasStart_run K with ⟨e, _, hpc⟩ | ⟨w, _, ⟨e, _, hpc⟩ |
      ⟨d, _, ⟨e, _, hpc⟩ | ⟨f, _, ⟨e, _, hpc⟩ | ⟨s, _, ⟨e, _, hpc⟩ |
      ⟨d₂, _, hpc⟩⟩⟩⟩⟩ <;> rw [hpc] <;>
      simp [pcTrace5, pcTrace4, pcTrace3, pcTrace2, pcTrace1,
        Call.isRenderLoopStart]

/-- Witness for C9 amended: a fully successful BabylonJS run starts the
render loop exactly once, as its last call. -/
theorem c9_witness :
    ((babylonStart goodKernel).1.filter Call.isRenderLoopStart).length = 1 ∧
    (babylonStart goodKernel).1.getLast? = some .runRenderLoop :=
  c9_amended_render_loop.1 Nat Nat Unit goodKernel rfl

/-- C6: if any collaborator call rejects, the script performs none of the
remaining pipeline steps and the rejection propagates unmodified: the
failing call is the last call issued, the script outcome is exactly that
rejection, every call issued before it had resolved, and the script
bodies contain no try/catch handler and no loop, hence no retry, no
recovery handler and no transformation of collaborator errors. -/
theorem c6_failure_aborts_pipeline :
    (∀ (H D E : Type) (K : Kernel H D E) (e : E),
       (playcanvasStart K).2 = .error e →
       ∃ (tr : List (Call H)) (c : Call H), (playcanvasStart K).1 = tr ++ [c] ∧
         applyCall K c = .error e ∧
         ∀ c₂ ∈ tr, ∃ r, applyCall K c₂ = .ok r) ∧
    (∀ (H D E : Type) (K : Kernel H D E) (e : E),
       (babylonStart K).2 = .error e →
       ∃ (tr : List (Call H)) (c : Call H), (babylonStart K).1 = tr ++ [c] ∧
         applyCall K c = .error e ∧
         ∀ c₂ ∈ tr, ∃ r, applyCall K c₂ = .ok r) ∧
    countTryCatches playcanvasAst = 0 ∧
    countTryCatches babylonAst = 0 ∧
    countLoops playcanvasAst = 0 ∧
    countLoops babylonAst = 0 := by
  refine ⟨?_, ?_, by decide, by decide, by decide, by decide⟩
  · intro H D E K e herr
    rcases playcanvasStart_run K with ⟨e₁, hw, hpc⟩ | ⟨w, hw, ⟨e₁, hd, hpc⟩ |
      ⟨d, hd, ⟨e₁, hf, hpc⟩ | ⟨f, hf, ⟨e₁, hr, hpc⟩ | ⟨s, hr, ⟨e₁, hds, hpc⟩ |
      ⟨d₂, hds, hpc⟩⟩⟩⟩⟩ <;> rw [hpc] at herr ⊢
    · obtain rfl : e₁ = e := by simpa using herr
      refine ⟨[], .createPolylineWire PC.wireInput, by simp [pcTrace1], ?_, by simp⟩
      simp [applyCall, Except.map, hw]
    · obtain rfl : e₁ = e := by simpa using herr
      refine ⟨pcTrace1,
        .drawAnyAsync (.occtShape w) (.occt PC.wireDrawOptions),
        by simp [pcTrace2], ?_, ?_⟩
      · simp [applyCall, Except.map, hd]
      · intro c₂ hc₂
        simp only [pcTrace1, List.mem_singleton] at hc₂
        subst hc₂
        exact ⟨.shape w, by simp [applyCall, Except.map, hw]⟩
    · obtain rfl : e₁ = e := by simpa using herr
      refine ⟨pcTrace2 w, .createFaceFromWire ⟨w, true⟩,
        by simp [pcTrace3], ?_, ?_⟩
      · simp [applyCall, Except.map, hf]
      · intro c₂ hc₂
        simp [pcTrace2, pcTrace1] at hc₂
        rcases hc₂ with rfl | rfl
        · exact ⟨.shape w, by simp [applyCall, Except.map, hw]⟩
        · exact ⟨.drawn d, by simp [applyCall, Except.map, hd]⟩
    · obtain rfl : e₁ = e := by simpa using herr
      refine ⟨pcTrace3 w, .revolve ⟨f, PC.revolveDirection, PC.revolveAngle⟩,
        by simp [pcTrace4], ?_, ?_⟩
      · simp [applyCall, Except.map, hr]
      · intro c₂ hc₂
        simp [pcTrace3, pcTrace2, pcTrace1] at hc₂
        rcases hc₂ with rfl | rfl | rfl
        · exact ⟨.shape w, by simp [applyCall, Except.map, hw]⟩
        · exact ⟨.drawn d, by simp [applyCall, Except.map, hd]⟩
        · exact ⟨.shape f, by simp [applyCall, Except.map, hf]⟩
    · obtain rfl : e₁ = e := by simpa using herr
      refine ⟨pcTrace4 w f,
        .drawAnyAsync (.occtShape s) (.occt PC.solidDrawOptions),
        by simp [pcTrace5], ?_, ?_⟩
      · simp [applyCall, Except.map, hds]
      · intro c₂ hc₂
        simp [pcTrace4, pcTrace3, pcTrace2, pcTrace1] at hc₂
        rcases hc₂ with rfl | rfl | rfl | rfl
        · exact ⟨.shape w, by simp [applyCall, Except.map, hw]⟩
        · exact ⟨.drawn d, by simp [applyCall, Except.map, hd]⟩
        · exact ⟨.shape f, by simp [applyCall, Except.map, hf]⟩
        · exact ⟨.shape s, by simp [applyCall, Except.map, hr]⟩
    · simp at herr
  · intro H D E K e herr
    rcases babylonStart_run K with ⟨e₁, hw, hbj⟩ | ⟨w, hw, ⟨e₁, hd, hbj⟩ |
      ⟨d, hd, ⟨e₁, ha, hbj⟩ | ⟨d₂, ha, ⟨e₁, hf, hbj⟩ | ⟨f, hf, ⟨e₁, hr, hbj⟩ |
      ⟨s, hr, ⟨e₁, hds, hbj⟩ | ⟨d₃, hds, hbj⟩⟩⟩⟩⟩⟩ <;> rw [hbj] at herr ⊢
    · obtain rfl : e₁ = e := by simpa using herr
      refine ⟨[], .createPolylineWire BJS.wireInput, by simp [bjTrace1], ?_, by simp⟩
      simp [applyCall, Except.map, hw]
    · obtain rfl : e₁ = e := by simpa using herr
      refine ⟨bjTrace1,
        .drawAnyAsync (.occtShape w) (.occt BJS.wireDrawOptions),
        by simp [bjTrace2], ?_, ?_⟩
      · simp [applyCall, Except.map, hd]
      · intro c₂ hc₂
        simp only [bjTrace1, List.mem_singleton] at hc₂
        subst hc₂
        exact ⟨.shape w, by simp [applyCall, Except.map, hw]⟩
    · obtain rfl : e₁ = e := by simpa using herr
      refine ⟨bjTrace2 w,
        .drawAnyAsync (.polyline BJS.axisPolyline) (.basic BJS.axisOptions),
        by simp [bjTrace3], ?_, ?_⟩
      · simp [applyCall, Except.map, ha]
      · intro c₂ hc₂
        simp [bjTrace2, bjTrace1] at hc₂
        rcases hc₂ with rfl | rfl
        · exact ⟨.shape w, by simp [applyCall, Except.map, hw]⟩
        · exact ⟨.drawn d, by simp [applyCall, Except.map, hd]⟩
    · obtain rfl : e₁ = e := by simpa using herr
      refine ⟨bjTrace3 w, .createFaceFromWire ⟨w, true⟩,
        by simp [bjTrace4], ?_, ?_⟩
      · simp [applyCall, Except.map, hf]
      · intro c₂ hc₂
        simp [bjTrace3, bjTrace2, bjTrace1] at hc₂
        rcases hc₂ with rfl | rfl | rfl
        · exact ⟨.shape w, by simp [applyCall, Except.map, hw]⟩
        · exact ⟨.drawn d, by simp [applyCall, Except.map, hd]⟩
        · exact ⟨.drawn d₂, by simp [applyCall, Except.map, ha]⟩
    · obtain rfl : e₁ = e := by simpa using herr
      refine ⟨bjTrace4 w, .revolve ⟨f, BJS.revolveDirection, BJS.revolveAngle⟩,
        by simp [bjTrace5], ?_, ?_⟩
      · simp [applyCall, Except.map, hr]
      · intro c₂ hc₂
        simp [bjTrace4, bjTrace3, bjTrace2, bjTrace1] at hc₂
        rcases hc₂ with rfl | rfl | rfl | rfl
        · exact ⟨.shape w, by simp [applyCall, Except.map, hw]⟩
        · exact ⟨.drawn d, by simp [applyCall, Except.map, hd]⟩
        · exact ⟨.drawn d₂, by simp [applyCall, Except.map, ha]⟩
        · exact ⟨.shape f, by simp [applyCall, Except.map, hf]⟩
    · obtain rfl : e₁ = e := by simpa using herr
      refine ⟨bjTrace5 w f,
        .drawAnyAsync (.occtShape s) (.occt BJS.solidDrawOptions),
        by simp [bjTrace6], ?_, ?_⟩
      · simp [applyCall, Except.map, hds]
      · intro c₂ hc₂
        simp [bjTrace5, bjTrace4, bjTrace3, bjTrace2, bjTrace1] at hc₂
        rcases hc₂ with rfl | rfl | rfl | rfl | rfl
        · exact ⟨.shape w, by simp [applyCall, Except.map, hw]⟩
        · exact ⟨.drawn d, by simp [applyCall, Except.map, hd]⟩
        · exact ⟨.drawn d₂, by simp [applyCall, Except.map, ha]⟩
        · exact ⟨.shape f, by simp [applyCall, Except.map, hf]⟩
        · exact ⟨.shape s, by simp [applyCall, Except.map, hr]⟩
    · simp at herr

/-- Witness for C6: when face construction rejects in the BabylonJS
script, the face call is the last call issued, the rejection is the
outcome unmodified, and everything issued before it had resolved. -/
theorem c6_witness :
    ∃ (tr : List (Call Nat)) (c : Call Nat),
      (babylonStart faceFailKernel).1 = tr ++ [c] ∧
      applyCall faceFailKernel c = .error "face construction failed" ∧
      ∀ c₂ ∈ tr, ∃ r, applyCall faceFailKernel c₂ = .ok r :=
  c6_failure_aborts_pipeline.2.1 Nat Nat String faceFailKernel
    "face construction failed" rfl

/-- C8: geometric handles flow unmodified through the pipeline: whenever a
run has resolved the wire handle, every face-construction request of that
run carries exactly that wire handle (in particular the drawing of the
wire in between does not change it, and the wire drawing request itself
carries the same handle), every revolve request carries exactly the
resolved face handle, and the drawing request styled with the solid style
record carries exactly the resolved solid handle; style records never
enter any geometry-kernel request, so they affect presentation only. -/
theorem c8_handles_flow_unmodified :
    (∀ (H D E : Type) (K : Kernel H D E) (w : H),
       K.createPolylineWire PC.wireInput = .ok w →
       (∀ i : FaceFromWireDto H,
          Call.createFaceFromWire i ∈ (playcanvasStart K).1 → i = ⟨w, true⟩) ∧
       (∀ ent, Call.drawAnyAsync ent (.occt PC.wireDrawOptions) ∈ (playcanvasStart K).1 →
          ent = .occtShape w) ∧
       ∀ f, K.createFaceFromWire ⟨w, true⟩ = .ok f →
         (∀ i : RevolveDto H,
            Call.revolve i ∈ (playcanvasStart K).1 →
            i = ⟨f, PC.revolveDirection, PC.revolveAngle⟩) ∧
         ∀ s, K.revolve ⟨f, PC.revolveDirection, PC.revolveAngle⟩ = .ok s →
           ∀ ent, Call.drawAnyAsync ent (.occt PC.solidDrawOptions) ∈ (playcanvasStart K).1 →
             ent = .occtShape s) ∧
    ∀ (H D E : Type) (K : Kernel H D E) (w : H),
       K.createPolylineWire BJS.wireInput = .ok w →
       (∀ i : FaceFromWireDto H,
          Call.createFaceFromWire i ∈ (babylonStart K).1 → i = ⟨w, true⟩) ∧
       (∀ ent, Call.drawAnyAsync ent (.occt BJS.wireDrawOptions) ∈ (babylonStart K).1 →
          ent = .occtShape w) ∧
       ∀ f, K.createFaceFromWire ⟨w, true⟩ = .ok f →
         (∀ i : RevolveDto H,
            Call.revolve i ∈ (babylonStart K).1 →
            i = ⟨f, BJS.revolveDirection, BJS.revolveAngle⟩) ∧
         ∀ s, K.revolve ⟨f, BJS.revolveDirection, BJS.revolveAngle⟩ = .ok s →
           ∀ ent, Call.drawAnyAsync ent (.occt BJS.solidDrawOptions) ∈ (babylonStart K).1 →
             ent = .occtShape s := by
  constructor
  · intro H D E K w hw
    rcases playcanvasStart_run K with ⟨e, hw₁, hpc⟩ | ⟨w₁, hw₁, ⟨e, hd, hpc⟩ |
      ⟨d, hd, ⟨e, hf₁, hpc⟩ | ⟨f₁, hf₁, ⟨e, hr₁, hpc⟩ | ⟨s₁, hr₁, ⟨e, hds, hpc⟩ |
      ⟨d₂, hds, hpc⟩⟩⟩⟩⟩
    · simp [hw] at hw₁
    · rw [hw] at hw₁
      obtain rfl : w = w₁ := by simpa using hw₁
      rw [hpc]
      refine ⟨?_, ?_, ?_⟩
      · intro i hi
        simp [pcTrace2, pcTrace1] at hi
      · intro ent hent
        simp [pcTrace2, pcTrace1] at hent
        exact hent
      · intro f hf
        refine ⟨?_, ?_⟩
        · intro i hi
          simp [pcTrace2, pcTrace1] at hi
        · intro s hr ent hent
          simp [pcTrace2, pcTrace1,
            PC.wireDrawOptions, PC.solidDrawOptions] at hent
    · rw [hw] at hw₁
      obtain rfl : w = w₁ := by simpa using hw₁
      rw [hpc]
      refine ⟨?_, ?_, ?_⟩
      · intro i hi
        simp [pcTrace3, pcTrace2, pcTrace1] at hi
        exact hi
      · intro ent hent
        simp [pcTrace3, pcTrace2, pcTrace1] at hent
        exact hent
      · intro f hf
        rw [hf₁] at hf
        simp at hf
    · rw [hw] at hw₁
      obtain rfl : w = w₁ := by simpa using hw₁
      rw [hpc]
      refine ⟨?_, ?_, ?_⟩
      · intro i hi
        simp [pcTrace4, pcTrace3, pcTrace2, pcTrace1] at hi
        exact hi
      · intro ent hent
        simp [pcTrace4, pcTrace3, pcTrace2, pcTrace1] at hent
        exact hent
      · intro f hf
        rw [hf₁] at hf
        obtain rfl : f₁ = f := by simpa using hf
        refine ⟨?_, ?_⟩
        · intro i hi
          simp [pcTrace4, pcTrace3, pcTrace2, pcTrace1] at hi
          exact hi
        · intro s hr
          rw [hr₁] at hr
          simp at hr
    · rw [hw] at hw₁
      obtain rfl : w = w₁ := by simpa using hw₁
      rw [hpc]
      refine ⟨?_, ?_, ?_⟩
      · intro i hi
        simp [pcTrace5, pcTrace4, pcTrace3, pcTrace2, pcTrace1] at hi
        exact hi
      · intro ent hent
        simp [pcTrace5, pcTrace4, pcTrace3, pcTrace2, pcTrace1,
          PC.wireDrawOptions, PC.solidDrawOptions] at hent
        exact hent
      · intro f hf
        rw [hf₁] at hf
        obtain rfl : f₁ = f := by simpa using hf
        refine ⟨?_, ?_⟩
        · intro i hi
          simp [pcTrace5, pcTrace4, pcTrace3, pcTrace2, pcTrace1] at hi
          exact hi
        · intro s hr
          rw [hr₁] at hr
          obtain rfl : s₁ = s := by simpa using hr
          intro ent hent
          simp [pcTrace5, pcTrace4, pcTrace3, pcTrace2, pcTrace1,
            PC.wireDrawOptions, PC.solidDrawOptions] at hent
          exact hent
    · rw [hw] at hw₁
      obtain rfl : w = w₁ := by simpa using hw₁
      rw [hpc]
      refine ⟨?_, ?_, ?_⟩
      · intro i hi
        simp [pcTrace5, pcTrace4, pcTrace3, pcTrace2, pcTrace1] at hi
        exact hi
      · intro ent hent
        simp [pcTrace5, pcTrace4, pcTrace3, pcTrace2, pcTrace1,
          PC.wireDrawOptions, PC.solidDrawOptions] at hent
        exact hent
      · intro f hf
        rw [hf₁] at hf
        obtain rfl : f₁ = f := by simpa using hf
        refine ⟨?_, ?_⟩
        · intro i hi
          simp [pcTrace5, pcTrace4, pcTrace3, pcTrace2, pcTrace1] at hi
          exact hi
        · intro s hr
          rw [hr₁] at hr
          obtain rfl : s₁ = s := by simpa using hr
          intro ent hent
          simp [pcTrace5, pcTrace4, pcTrace3, pcTrace2, pcTrace1,
            PC.wireDrawOptions, PC.solidDrawOptions] at hent
          exact hent
  · intro H D E K w hw
    rcases babylonStart_run K with ⟨e, hw₁, hbj⟩ | ⟨w₁, hw₁, ⟨e, hd, hbj⟩ |
      ⟨d, hd, ⟨e, ha, hbj⟩ | ⟨d₂, ha, ⟨e, hf₁, hbj⟩ | ⟨f₁, hf₁, ⟨e, hr₁, hbj⟩ |
      ⟨s₁, hr₁, ⟨e, hds, hbj⟩ | ⟨d₃, hds, hbj⟩⟩⟩⟩⟩⟩
    · simp [hw] at hw₁
    · rw [hw] at hw₁
      obtain rfl : w = w₁ := by simpa using hw₁
      rw [hbj]
      refine ⟨?_, ?_, ?_⟩
      · intro i hi
        simp [bjTrace2, bjTrace1] at hi
      · intro ent hent
        simp [bjTrace2, bjTrace1] at hent
        exact hent
      · intro f hf
        refine ⟨?_, ?_⟩
        · intro i hi
          simp [bjTrace2, bjTrace1] at hi
        · intro s hr ent hent
          simp [bjTrace2, bjTrace1,
            BJS.wireDrawOptions, BJS.solidDrawOptions] at hent
    · rw [hw] at hw₁
      obtain rfl : w = w₁ := by simpa using hw₁
      rw [hbj]
      refine ⟨?_, ?_, ?_⟩
      · intro i hi
        simp [bjTrace3, bjTrace2, bjTrace1] at hi
      · intro ent hent
        simp [bjTrace3, bjTrace2, bjTrace1] at hent
        exact hent
      · intro f hf
        refine ⟨?_, ?_⟩
        · intro i hi
          simp [bjTrace3, bjTrace2, bjTrace1] at hi
        · intro s hr ent hent
          simp [bjTrace3, bjTrace2, bjTrace1,
            BJS.wireDrawOptions, BJS.solidDrawOptions] at hent
    · rw [hw] at hw₁
      obtain rfl : w = w₁ := by simpa using hw₁
      rw [hbj]
      refine ⟨?_, ?_, ?_⟩
      · intro i hi
        simp [bjTrace4, bjTrace3, bjTrace2, bjTrace1] at hi
        exact hi
      · intro ent hent
        simp [bjTrace4, bjTrace3, bjTrace2, bjTrace1] at hent
        exact hent
      · intro f hf
        rw [hf₁] at hf
        simp at hf
    · rw [hw] at hw₁
      obtain rfl : w = w₁ := by simpa using hw₁
      rw [hbj]
      refine ⟨?_, ?_, ?_⟩
      · intro i hi
        simp [bjTrace5, bjTrace4, bjTrace3, bjTrace2, bjTrace1] at hi
        exact hi
      · intro ent hent
        simp [bjTrace5, bjTrace4, bjTrace3, bjTrace2, bjTrace1] at hent
        exact hent
      · intro f hf
        rw [hf₁] at hf
        obtain rfl : f₁ = f := by simpa using hf
        refine ⟨?_, ?_⟩
        · intro i hi
          simp [bjTrace5, bjTrace4, bjTrace3, bjTrace2, bjTrace1] at hi
          exact hi
        · intro s hr
          rw [hr₁] at hr
          simp at hr
    · rw [hw] at hw₁
      obtain rfl : w = w₁ := by simpa using hw₁
      rw [hbj]
      refine ⟨?_, ?_, ?_⟩
      · intro i hi
        simp [bjTrace6, bjTrace5, bjTrace4, bjTrace3, bjTrace2, bjTrace1] at hi
        exact hi
      · intro ent hent
        simp [bjTrace6, bjTrace5, bjTrace4, bjTrace3, bjTrace2, bjTrace1,
          BJS.wireDrawOptions, BJS.solidDrawOptions] at hent
        exact hent
      · intro f hf
        rw [hf₁] at hf
        obtain rfl : f₁ = f := by simpa using hf
        refine ⟨?_, ?_⟩
        · intro i hi
          simp [bjTrace6, bjTrace5, bjTrace4, bjTrace3, bjTrace2, bjTrace1] at hi
          exact hi
        · intro s hr
          rw [hr₁] at hr
          obtain rfl : s₁ = s := by simpa using hr
          intro ent hent
          simp [bjTrace6, bjTrace5, bjTrace4, bjTrace3, bjTrace2, bjTrace1,
            BJS.wireDrawOptions, BJS.solidDrawOptions] at hent
          exact hent
    · rw [hw] at hw₁
      obtain rfl : w = w₁ := by simpa using hw₁
      rw [hbj]
      refine ⟨?_, ?_, ?_⟩
      · intro i hi
        simp [bjTraceFull, bjTrace6, bjTrace5, bjTrace4, bjTrace3, bjTrace2,
          bjTrace1] at hi
        exact hi
      · intro ent hent
        simp [bjTraceFull, bjTrace6, bjTrace5, bjTrace4, bjTrace3, bjTrace2,
          bjTrace1, BJS.wireDrawOptions, BJS.solidDrawOptions] at hent
        exact hent
      · intro f hf
        rw [hf₁] at hf
        obtain rfl : f₁ = f := by simpa using hf
        refine ⟨?_, ?_⟩
        · intro i hi
          simp [bjTraceFull, bjTrace6, bjTrace5, bjTrace4, bjTrace3, bjTrace2,
            bjTrace1] at hi
          exact hi
        · intro s hr
          rw [hr₁] at hr
          obtain rfl : s₁ = s := by simpa using hr
          intro ent hent
          simp [bjTraceFull, bjTrace6, bjTrace5, bjTrace4, bjTrace3, bjTrace2,
            bjTrace1, BJS.wireDrawOptions, BJS.solidDrawOptions] at hent
          exact hent

/-- Witness for C8: in a fully successful PlayCanvas run the face request
found in the trace carries exactly the resolved wire handle. -/
theorem c8_witness :
    Call.createFaceFromWire (⟨1, true⟩ : FaceFromWireDto Nat) ∈
      (playcanvasStart goodKernel).1 ∧
    (⟨1, true⟩ : FaceFromWireDto Nat) = ⟨1, true⟩ :=
  ⟨by decide,
   (c8_handles_flow_unmodified.1 Nat Nat Unit goodKernel 1 rfl).1
     ⟨1, true⟩ (by decide)⟩

end BitByBit
